import Mathlib

/-
Verification of the sdl package: atomic primitives (src/sdl/atomic.go),
bit helpers (src/unnamed/part_000), blend modes (src/sdl/blendmode.go)
and the assertion subsystem (src/unnamed/part_001), via a shallow
embedding.  Machine integers are modelled as Int (int32 values wrap via
wrap32) or Nat (uintptr, uint32); global mutable state is passed
explicitly; process exit is the error branch of an Except.
-/

/-! ## Atomic primitives (src/sdl/atomic.go) -/

/-- Reduction of an Int into two's-complement int32 range, the wraparound
semantics of Go's atomic.AddInt32. -/
def wrap32 (x : Int) : Int := (x + 2 ^ 31) % 2 ^ 32 - 2 ^ 31

/-- src/sdl/atomic.go lines 212-216: reads the old value, stores old+v
(int32 wraparound) and returns the old value.  Result is
(stored value afterwards, returned value). -/
def SDL_AtomicAdd (a v : Int) : Int × Int :=
  let old := a
  (wrap32 (a + v), old)

/-- src/sdl/atomic.go lines 231-233: SDL_AtomicAdd(a, -1) == 1.
Result is (stored value afterwards, returned Bool). -/
def SDL_AtomicDecRef (a : Int) : Int × Bool :=
  let r := SDL_AtomicAdd a (-1)
  (r.1, r.2 == 1)

/-- src/sdl/atomic.go lines 174-176: atomic.SwapInt32 stores v and
returns the old value.  Result is (stored value afterwards, returned value). -/
def SDL_AtomicSet (a v : Int) : Int × Int := (v, a)

/-- src/sdl/atomic.go lines 272-275: atomic.StoreUintptr stores v, then
the function returns v.  Result is (stored value afterwards, returned value). -/
def SDL_AtomicSetPtr (a v : Nat) : Nat × Nat := (v, v)

/-- src/sdl/atomic.go lines 29-32: the lock word (the sync.Mutex field is a
zero-value copy-protection marker with no behavior). -/
structure SDL_SpinLock where
  lock : Nat
deriving DecidableEq

/-- src/sdl/atomic.go lines 45-47: a single CompareAndSwapUintptr from 0 to 1.
Result is (lock state afterwards, returned Bool). -/
def SDL_SpinLock.TryLock (l : SDL_SpinLock) : SDL_SpinLock × Bool :=
  if l.lock = 0 then (⟨1⟩, true) else (l, false)

/-- src/sdl/atomic.go lines 50-52: atomic.StoreUintptr(&l.lock, 0). -/
def SDL_SpinLock.Unlock (_ : SDL_SpinLock) : SDL_SpinLock := ⟨0⟩

/-- src/sdl/atomic.go lines 69-71. -/
def SDL_TryLockSpinlock (l : SDL_SpinLock) : SDL_SpinLock × Bool := l.TryLock

/-- src/sdl/atomic.go lines 105-107. -/
def SDL_UnlockSpinlock (l : SDL_SpinLock) : SDL_SpinLock := l.Unlock

/-! ## Bit helpers (src/unnamed/part_000) -/

/-- Go math/bits.Len32 per its documented contract: the minimum number of
bits required to represent x, and 0 for x = 0. -/
def bitsLen32 (x : Nat) : Nat := if x = 0 then 0 else Nat.log2 x + 1

/-- src/unnamed/part_000 lines 12-17. -/
def SDL_MostSignificantBitIndex32 (x : Nat) : Int :=
  if x = 0 then -1 else (bitsLen32 x : Int)

/-! ## Blend modes (src/sdl/blendmode.go, src/unnamed/part_002) -/

abbrev SDL_BlendMode := Int
abbrev SDL_BlendFactor := Int
abbrev SDL_BlendOperation := Int

def SDL_BLENDMODE_INVALID : SDL_BlendMode := 0x7FFFFFFF

/-- src/unnamed/part_002 lines 11-14: a Go panic, modelled as the error
branch of an Except carrying the panic message. -/
def TODO : Except String Unit := Except.error "not implemeted"

/-- src/sdl/blendmode.go lines 151-159: calls TODO() (which panics) and
then would return SDL_BLENDMODE_INVALID. -/
def SDL_ComposeCustomBlendMode (srcColorFactor dstColorFactor : SDL_BlendFactor)
    (colorOperation : SDL_BlendOperation)
    (srcAlphaFactor dstAlphaFactor : SDL_BlendFactor)
    (alphaOperation : SDL_BlendOperation) : Except String SDL_BlendMode :=
  TODO.bind (fun _ => Except.ok SDL_BLENDMODE_INVALID)

/-! ## Theorems for the leaf components -/

/-- Claim C3 counterexample: at pre-value INT32_MIN the stored value after
SDL_AtomicDecRef is INT32_MAX (int32 wraparound), not pre-value minus 1. -/
theorem C3_decref_counterexample :
    SDL_AtomicDecRef (-(2 ^ 31)) = (2 ^ 31 - 1, false)
    ∧ decide ((SDL_AtomicDecRef (-(2 ^ 31))).1 = -(2 ^ 31) - 1) = false := by
  decide

/-- Claim C3 (amended): for every int32 pre-value v, SDL_AtomicDecRef
returns true iff v was exactly 1, and the stored value afterwards is
wrap32 (v - 1), which equals v - 1 for every v other than INT32_MIN,
where it wraps to INT32_MAX. -/
theorem C3_decref (v : Int) (h1 : -(2 ^ 31) ≤ v) (h2 : v < 2 ^ 31) :
    ((SDL_AtomicDecRef v).2 = true ↔ v = 1)
    ∧ (SDL_AtomicDecRef v).1 = wrap32 (v - 1)
    ∧ (v ≠ -(2 ^ 31) → (SDL_AtomicDecRef v).1 = v - 1)
    ∧ (v = -(2 ^ 31) → (SDL_AtomicDecRef v).1 = 2 ^ 31 - 1) := by
  refine ⟨?_, rfl, ?_, ?_⟩
  · simp [SDL_AtomicDecRef, SDL_AtomicAdd]
  · intro hne
    simp only [SDL_AtomicDecRef, SDL_AtomicAdd, wrap32]
    omega
  · intro heq
    subst heq
    decide

/-- Witness for C3_decref at v = 5. -/
theorem C3_decref_witness :
    ((SDL_AtomicDecRef 5).2 = true ↔ (5 : Int) = 1)
    ∧ (SDL_AtomicDecRef 5).1 = wrap32 (5 - 1)
    ∧ ((5 : Int) ≠ -(2 ^ 31) → (SDL_AtomicDecRef 5).1 = 5 - 1)
    ∧ ((5 : Int) = -(2 ^ 31) → (SDL_AtomicDecRef 5).1 = 2 ^ 31 - 1) :=
  C3_decref 5 (by decide) (by decide)

/-- Claim C4: SDL_AtomicSetPtr on a pointer holding 0 with argument 1
stores 1 but returns 1, the new value, not the previous value 0 (its own
doc comment says it returns the previous value); SDL_AtomicSet does
return the previous value. -/
theorem C4_setptr_returns_new :
    SDL_AtomicSetPtr 0 1 = (1, 1) ∧ SDL_AtomicSet 0 1 = (1, 0) := by
  decide

/-- Claim C8: tryLock on a held lock returns false and leaves the state
unchanged; after unlock, tryLock returns true and acquires the lock. -/
theorem C8_spinlock :
    (∀ l : SDL_SpinLock, l.lock ≠ 0 → SDL_TryLockSpinlock l = (l, false))
    ∧ (∀ l : SDL_SpinLock, SDL_TryLockSpinlock (SDL_UnlockSpinlock l) = (⟨1⟩, true)) := by
  constructor
  · intro l h
    simp [SDL_TryLockSpinlock, SDL_SpinLock.TryLock, h]
  · intro l
    rfl

/-- Witness for C8_spinlock at a held lock. -/
theorem C8_spinlock_witness :
    SDL_TryLockSpinlock ⟨1⟩ = (⟨1⟩, false)
    ∧ SDL_TryLockSpinlock (SDL_UnlockSpinlock ⟨1⟩) = (⟨1⟩, true) :=
  ⟨C8_spinlock.1 ⟨1⟩ (by decide), C8_spinlock.2 ⟨1⟩⟩

/-- Claim C9: SDL_MostSignificantBitIndex32 returns -1 at 0 and returns
the bit length (floor (log2 x) + 1, a value in 1..32, characterised by
2 ^ (len - 1) ≤ x < 2 ^ len) for every nonzero 32-bit x. -/
theorem C9_msb_index32 :
    SDL_MostSignificantBitIndex32 0 = -1
    ∧ ∀ x : Nat, x ≠ 0 → x < 2 ^ 32 →
        SDL_MostSignificantBitIndex32 x = ((Nat.log2 x + 1 : Nat) : Int)
        ∧ 2 ^ Nat.log2 x ≤ x
        ∧ x < 2 ^ (Nat.log2 x + 1)
        ∧ 1 ≤ Nat.log2 x + 1
        ∧ Nat.log2 x + 1 ≤ 32 := by
  constructor
  · rfl
  · intro x hx hlt
    refine ⟨by simp [SDL_MostSignificantBitIndex32, bitsLen32, hx],
      Nat.log2_self_le hx, Nat.lt_log2_self, by omega, ?_⟩
    have h32 : Nat.log2 x < 32 := (Nat.log2_lt hx).mpr hlt
    omega

/-- Witness for C9_msb_index32 at x = 5. -/
theorem C9_msb_index32_witness :
    SDL_MostSignificantBitIndex32 5 = ((Nat.log2 5 + 1 : Nat) : Int)
    ∧ 2 ^ Nat.log2 5 ≤ 5
    ∧ 5 < 2 ^ (Nat.log2 5 + 1)
    ∧ 1 ≤ Nat.log2 5 + 1
    ∧ Nat.log2 5 + 1 ≤ 32 :=
  C9_msb_index32.2 5 (by decide) (by decide)

/-- Claim C10: for every combination of blend factors and operations,
SDL_ComposeCustomBlendMode panics with message "not implemeted" and
never produces a blend-mode value. -/
theorem C10_compose_always_panics (srcColorFactor dstColorFactor : SDL_BlendFactor)
    (colorOperation : SDL_BlendOperation)
    (srcAlphaFactor dstAlphaFactor : SDL_BlendFactor)
    (alphaOperation : SDL_BlendOperation) :
    SDL_ComposeCustomBlendMode srcColorFactor dstColorFactor colorOperation
      srcAlphaFactor dstAlphaFactor alphaOperation = Except.error "not implemeted" := rfl

/-! ## Assertion subsystem (src/unnamed/part_001) -/

/-- src/unnamed/part_001 lines 30-38. -/
inductive SDL_AssertState where
  | SDL_ASSERTION_RETRY
  | SDL_ASSERTION_BREAK
  | SDL_ASSERTION_ABORT
  | SDL_ASSERTION_IGNORE
  | SDL_ASSERTION_ALWAYS_IGNORE
deriving DecidableEq

open SDL_AssertState

/-- src/unnamed/part_001 lines 40-48.  The Next pointer of the original
struct is represented by the position of the record in the registry list
of AssertWorld rather than by a field. -/
structure SDL_AssertData where
  AlwaysIgnore : Bool
  TriggerCount : Nat
  Condition : String
  Filename : String
  Linenum : Int
  Function : String
deriving DecidableEq

/-- The Go zero value of SDL_AssertData, as produced by SDL_AssertData{}. -/
def emptyAssertData : SDL_AssertData :=
  { AlwaysIgnore := false, TriggerCount := 0, Condition := "", Filename := "",
    Linenum := 0, Function := "" }

/-- The mutable global state of part_001: records live at Nat addresses in
a heap (pointer writes become heap updates), triggeredAssertions is the
global list (line 282) with the head the most recently inserted record,
and nextId is the allocator for fresh records. -/
structure AssertWorld where
  heap : Nat → SDL_AssertData
  triggeredAssertions : List Nat
  nextId : Nat

def initialWorld : AssertWorld :=
  { heap := fun _ => emptyAssertData, triggeredAssertions := [], nextId := 0 }

/-- Pointer write: the record at address id becomes d. -/
def updateHeap (hp : Nat → SDL_AssertData) (id : Nat) (d : SDL_AssertData) :
    Nat → SDL_AssertData :=
  fun j => if j = id then d else hp j

/-- src/unnamed/part_001 lines 288-294: increment the record's trigger
count; insert it at the head of the list iff the count just became 1. -/
def SDL_AddAssertionToReport (s : AssertWorld) (id : Nat) : AssertWorld :=
  let d := { s.heap id with TriggerCount := (s.heap id).TriggerCount + 1 }
  let s2 := { s with heap := updateHeap s.heap id d }
  if d.TriggerCount = 1 then
    { s2 with triggeredAssertions := id :: s2.triggeredAssertions }
  else s2

/-- src/unnamed/part_001 lines 262-273: walk the list, clearing the
always-ignore flag and the trigger count of every listed record (and its
Next pointer), then empty the list. -/
def SDL_ResetAssertionReport (s : AssertWorld) : AssertWorld :=
  { s with
    heap := fun j =>
      if j ∈ s.triggeredAssertions then
        { s.heap j with AlwaysIgnore := false, TriggerCount := 0 }
      else s.heap j,
    triggeredAssertions := [] }

/-- A handler (src/unnamed/part_001 line 174) reads the record and — since
it can reach the package globals — may transform the world or terminate
the process (the error branch carries the exit code). -/
def Handler : Type :=
  AssertWorld → SDL_AssertData → Except Nat (AssertWorld × SDL_AssertState)

/-- A handler that only inspects the record, as SDL_PromptAssertion does. -/
def liftHandler (h : SDL_AssertData → SDL_AssertState) : Handler :=
  fun s d => Except.ok (s, h d)

/-- src/unnamed/part_001 lines 330-332: os.Exit. -/
def SDL_ExitProcess (exitcode : Nat) : Except Nat (AssertWorld × SDL_AssertState) :=
  Except.error exitcode

/-- src/unnamed/part_001 lines 334-337. -/
def SDL_AbortAssertion : Except Nat (AssertWorld × SDL_AssertState) :=
  SDL_ExitProcess 42

/-- src/unnamed/part_001 lines 70-74: capture function, file and line into
the record iff its trigger count is 0. -/
def captureIfFirst (s : AssertWorld) (id : Nat) (fn file : String) (line : Int) :
    AssertWorld :=
  if (s.heap id).TriggerCount = 0 then
    let d := { s.heap id with Function := fn, Filename := file, Linenum := line }
    { s with heap := updateHeap s.heap id d }
  else s

/-- src/unnamed/part_001 lines 93-107: the switch on the verdict.
ALWAYS_IGNORE is remapped to IGNORE and makes the flag sticky; ABORT
terminates the process; the other verdicts are returned unchanged. -/
def reportVerdictSwitch (s : AssertWorld) (id : Nat) (state : SDL_AssertState) :
    Except Nat (AssertWorld × SDL_AssertState) :=
  match state with
  | SDL_ASSERTION_ALWAYS_IGNORE =>
      let d := { s.heap id with AlwaysIgnore := true }
      Except.ok ({ s with heap := updateHeap s.heap id d }, SDL_ASSERTION_IGNORE)
  | SDL_ASSERTION_ABORT => SDL_AbortAssertion
  | st => Except.ok (s, st)

/-- src/unnamed/part_001 lines 89-107: invoke the handler only when the
record's always-ignore flag is not set (state starts as IGNORE, so a
skipped handler yields IGNORE), then run the verdict switch. -/
def reportAfterCheck (handler : Handler) (s : AssertWorld) (id : Nat) :
    Except Nat (AssertWorld × SDL_AssertState) :=
  if (s.heap id).AlwaysIgnore = false then
    match handler s (s.heap id) with
    | Except.error c => Except.error c
    | Except.ok (s2, st) => reportVerdictSwitch s2 id st
  else
    reportVerdictSwitch s id SDL_ASSERTION_IGNORE

/-- src/unnamed/part_001 lines 63-112.  Exactly as in the source,
assertionRunning (like the guarding mutex) is a local variable of the
function, initialised to 0 on every call; the escalation checks compare
against its incremented value, and the runtime.Gosched branch falls
through to the handler invocation. -/
def SDL_ReportAssertion (handler : Handler) (s : AssertWorld) (id : Nat)
    (fn file : String) (line : Int) : Except Nat (AssertWorld × SDL_AssertState) :=
  let assertionRunning : Nat := 0
  let s2 := SDL_AddAssertionToReport (captureIfFirst s id fn file line) id
  let assertionRunning := assertionRunning + 1
  if assertionRunning > 1 then
    if assertionRunning = 2 then SDL_AbortAssertion
    else if assertionRunning = 3 then SDL_ExitProcess 42
    else reportAfterCheck handler s2 id
  else reportAfterCheck handler s2 id

/-- The bookkeeping prefix of SDL_ReportAssertion: capture then register. -/
theorem reportAssertion_unfold (handler : Handler) (s : AssertWorld) (id : Nat)
    (fn file : String) (line : Int) :
    SDL_ReportAssertion handler s id fn file line
      = reportAfterCheck handler
          (SDL_AddAssertionToReport (captureIfFirst s id fn file line) id) id := rfl

/-- src/unnamed/part_001 lines 118-131, one loop iteration on a failing
condition: a FRESH record (var sdl_assert_data = SDL_AssertData{} inside
the loop body) is allocated and reported. -/
def SDL_enabled_assert_step (handler : Handler) (s : AssertWorld)
    (fn file : String) (line : Int) : Except Nat (AssertWorld × SDL_AssertState) :=
  let id := s.nextId
  let hp := updateHeap s.heap id emptyAssertData
  let s1 := { s with heap := hp, nextId := s.nextId + 1 }
  SDL_ReportAssertion handler s1 id fn file line

/-- src/unnamed/part_001 lines 118-131: the retry loop of one failing
evaluation (fuel bounds the RETRY iterations; BREAK triggers the external
breakpoint hook and then leaves the loop like IGNORE). -/
def SDL_enabled_assert_loop (handler : Handler) (fn file : String) (line : Int) :
    Nat → AssertWorld → Except Nat AssertWorld
  | 0, s => Except.ok s
  | fuel + 1, s =>
    match SDL_enabled_assert_step handler s fn file line with
    | Except.error c => Except.error c
    | Except.ok (s2, st) =>
      if st = SDL_ASSERTION_RETRY then
        SDL_enabled_assert_loop handler fn file line fuel s2
      else Except.ok s2

/-- n consecutive failed evaluations of the same call site, each one a
call of SDL_enabled_assert with a false condition. -/
def consecutiveFailures (handler : Handler) (fn file : String) (line : Int) :
    Nat → AssertWorld → Except Nat AssertWorld
  | 0, s => Except.ok s
  | n + 1, s =>
    match SDL_enabled_assert_loop handler fn file line 1 s with
    | Except.error c => Except.error c
    | Except.ok s2 => consecutiveFailures handler fn file line n s2

/-- The handler used in concrete scenarios: always IGNORE. -/
def ignoreHandler : Handler :=
  fun s _ => Except.ok (s, SDL_ASSERTION_IGNORE)

/-- A handler that itself fails an assertion: while handling one failure
it reports another (nested) one, then resolves its own as IGNORE. -/
def nestedFailureHandler : Handler :=
  fun s _ =>
    match SDL_enabled_assert_step ignoreHandler s "g" "b.go" 20 with
    | Except.error c => Except.error c
    | Except.ok (s2, _) => Except.ok (s2, SDL_ASSERTION_IGNORE)

/-! ## The default handler (src/unnamed/part_001 lines 339-497) -/

/-- src/unnamed/part_001 lines 470-494: the interactive loop.  stdin is the
remaining sequence of input tokens; an exhausted list is end-of-input
(Fscanln failing), which leaves the loop with the current state. -/
def promptLoop : SDL_AssertState → List String → SDL_AssertState
  | state, [] => state
  | state, buf :: rest =>
    if buf = "a" then SDL_ASSERTION_ABORT
    else if buf = "b" then SDL_ASSERTION_BREAK
    else if buf = "r" then SDL_ASSERTION_RETRY
    else if buf = "i" then SDL_ASSERTION_IGNORE
    else if buf = "A" then SDL_ASSERTION_ALWAYS_IGNORE
    else promptLoop state rest

/-- src/unnamed/part_001 lines 339-497: state starts as ABORT; a non-empty
SDL_ASSERT environment value is answered directly (unrecognized values
give ABORT); otherwise the interactive loop runs.  envr = "" is what
os.Getenv returns for an unset variable. -/
def SDL_PromptAssertion (envr : String) (stdin : List String) : SDL_AssertState :=
  let state := SDL_ASSERTION_ABORT
  if envr ≠ "" then
    if envr = "abort" then SDL_ASSERTION_ABORT
    else if envr = "break" then SDL_ASSERTION_BREAK
    else if envr = "retry" then SDL_ASSERTION_RETRY
    else if envr = "ignore" then SDL_ASSERTION_IGNORE
    else if envr = "always_ignore" then SDL_ASSERTION_ALWAYS_IGNORE
    else SDL_ASSERTION_ABORT
  else
    promptLoop state stdin

/-! ## Helper lemmas about the engine -/

theorem captureIfFirst_AlwaysIgnore (s : AssertWorld) (id : Nat) (fn file : String)
    (line : Int) (j : Nat) :
    ((captureIfFirst s id fn file line).heap j).AlwaysIgnore = (s.heap j).AlwaysIgnore := by
  unfold captureIfFirst
  split
  · by_cases hj : j = id
    · subst hj; simp [updateHeap]
    · simp [updateHeap, hj]
  · rfl

theorem captureIfFirst_heap_of_zero (s : AssertWorld) (id : Nat) (fn file : String)
    (line : Int) (h : (s.heap id).TriggerCount = 0) :
    (captureIfFirst s id fn file line).heap
      = updateHeap s.heap id
          ({ s.heap id with Function := fn, Filename := file, Linenum := line }) := by
  unfold captureIfFirst
  rw [if_pos h]

theorem addAssertion_heap (s : AssertWorld) (id : Nat) :
    (SDL_AddAssertionToReport s id).heap
      = updateHeap s.heap id
          ({ s.heap id with TriggerCount := (s.heap id).TriggerCount + 1 }) := by
  simp only [SDL_AddAssertionToReport]
  split <;> rfl

theorem addAssertion_registry (s : AssertWorld) (id : Nat) :
    (SDL_AddAssertionToReport s id).triggeredAssertions
      = if (s.heap id).TriggerCount + 1 = 1 then id :: s.triggeredAssertions
        else s.triggeredAssertions := by
  simp only [SDL_AddAssertionToReport]
  split <;> simp_all

theorem addAssertion_AlwaysIgnore (s : AssertWorld) (id j : Nat) :
    ((SDL_AddAssertionToReport s id).heap j).AlwaysIgnore = (s.heap j).AlwaysIgnore := by
  rw [addAssertion_heap]
  by_cases hj : j = id
  · subst hj; simp [updateHeap]
  · simp [updateHeap, hj]

/-- A handler verdict of ALWAYS_IGNORE is remapped to IGNORE for the
caller and durably sets the record's flag. -/
theorem report_always_ignore_verdict (h : SDL_AssertData → SDL_AssertState)
    (s : AssertWorld) (id : Nat) (fn file : String) (line : Int)
    (hA : ∀ d, h d = SDL_ASSERTION_ALWAYS_IGNORE) :
    (SDL_ReportAssertion (liftHandler h) s id fn file line).map
      (fun p => (p.2, (p.1.heap id).AlwaysIgnore))
      = Except.ok (SDL_ASSERTION_IGNORE, true) := by
  rw [reportAssertion_unfold]
  set s4 := SDL_AddAssertionToReport (captureIfFirst s id fn file line) id with hs4
  unfold reportAfterCheck
  by_cases hfl : (s4.heap id).AlwaysIgnore = false
  · rw [if_pos hfl]
    simp [liftHandler, hA, reportVerdictSwitch, updateHeap, Except.map]
  · rw [if_neg hfl]
    simp only [reportVerdictSwitch]
    simp [Except.map]
    revert hfl
    cases (s4.heap id).AlwaysIgnore <;> simp

/-- On a record whose always-ignore flag is set, reporting is independent
of the handler (the handler is not invoked), resolves as IGNORE and keeps
the flag set. -/
theorem report_flagged_record (s : AssertWorld) (id : Nat) (fn file : String)
    (line : Int) (hfl : (s.heap id).AlwaysIgnore = true) :
    (∀ hd1 hd2 : Handler, SDL_ReportAssertion hd1 s id fn file line
        = SDL_ReportAssertion hd2 s id fn file line)
    ∧ ∀ hd : Handler, (SDL_ReportAssertion hd s id fn file line).map
        (fun p => (p.2, (p.1.heap id).AlwaysIgnore))
        = Except.ok (SDL_ASSERTION_IGNORE, true) := by
  have hfl4 : ((SDL_AddAssertionToReport (captureIfFirst s id fn file line) id).heap
      id).AlwaysIgnore = true := by
    rw [addAssertion_AlwaysIgnore, captureIfFirst_AlwaysIgnore, hfl]
  constructor
  · intro hd1 hd2
    rw [reportAssertion_unfold, reportAssertion_unfold]
    unfold reportAfterCheck
    rw [if_neg (by simp [hfl4]), if_neg (by simp [hfl4])]
  · intro hd
    rw [reportAssertion_unfold]
    unfold reportAfterCheck
    rw [if_neg (by simp [hfl4])]
    simp [reportVerdictSwitch, Except.map, hfl4]

/-- Reporting a failure on a record with trigger count 0 and a clear flag
captures the location, sets the count to 1 and inserts the record. -/
theorem report_first_trigger (h : SDL_AssertData → SDL_AssertState) (s : AssertWorld)
    (id : Nat) (fn file : String) (line : Int)
    (hcnt : (s.heap id).TriggerCount = 0) (hfl : (s.heap id).AlwaysIgnore = false)
    (hab : ∀ d, h d ≠ SDL_ASSERTION_ABORT) :
    (SDL_ReportAssertion (liftHandler h) s id fn file line).map
      (fun p => ((p.1.heap id).Function, (p.1.heap id).Filename, (p.1.heap id).Linenum,
        (p.1.heap id).TriggerCount, decide (id ∈ p.1.triggeredAssertions)))
      = Except.ok (fn, file, line, 1, true) := by
  rw [reportAssertion_unfold]
  set s3 := captureIfFirst s id fn file line with hs3
  set s4 := SDL_AddAssertionToReport s3 id with hs4
  have h3id : s3.heap id
      = { s.heap id with Function := fn, Filename := file, Linenum := line } := by
    rw [hs3, captureIfFirst_heap_of_zero s id fn file line hcnt]
    simp [updateHeap]
  have h4heap : s4.heap id
      = { s3.heap id with TriggerCount := (s3.heap id).TriggerCount + 1 } := by
    rw [hs4, addAssertion_heap]
    simp [updateHeap]
  have hFun : (s4.heap id).Function = fn := by rw [h4heap, h3id]
  have hFile : (s4.heap id).Filename = file := by rw [h4heap, h3id]
  have hLine : (s4.heap id).Linenum = line := by rw [h4heap, h3id]
  have hCnt : (s4.heap id).TriggerCount = 1 := by rw [h4heap, h3id]; simp [hcnt]
  have hFl : (s4.heap id).AlwaysIgnore = false := by rw [h4heap, h3id]; simp [hfl]
  have hReg : s4.triggeredAssertions = id :: s3.triggeredAssertions := by
    rw [hs4, addAssertion_registry, h3id]
    simp [hcnt]
  unfold reportAfterCheck
  rw [if_pos hFl]
  simp only [liftHandler]
  cases hv : h (s4.heap id)
  case SDL_ASSERTION_ABORT => exact absurd hv (hab _)
  all_goals simp [reportVerdictSwitch, Except.map, hFun, hFile, hLine, hCnt, hReg, updateHeap]

/-- promptLoop never leaves its carried state when no input token is
recognized. -/
theorem promptLoop_no_token (st : SDL_AssertState) (stdin : List String)
    (h : ∀ b ∈ stdin, b ∉ (["a", "b", "r", "i", "A"] : List String)) :
    promptLoop st stdin = st := by
  induction stdin with
  | nil => rfl
  | cons x xs ih =>
    have hx := h x (by simp)
    simp only [List.mem_cons, List.mem_singleton] at hx
    push_neg at hx
    obtain ⟨h1, h2, h3, h4, h5⟩ := hx
    simp only [promptLoop, h1, h2, h3, h4, h5, if_false]
    exact ih (fun b hb => h b (List.mem_cons_of_mem x hb))

/-! ## Claim theorems for the assertion subsystem -/

/-- Claim C1: two consecutive failed evaluations of the same call site
(function f, file a.go, line 10) leave TWO records in the registry list,
each with trigger count 1 and both bearing the same call-site location,
because SDL_enabled_assert allocates a fresh SDL_AssertData on every
failing evaluation; the registry does not hold the call site exactly once
with trigger count N. -/
theorem C1_registry_duplication :
    (consecutiveFailures ignoreHandler "f" "a.go" 10 2 initialWorld).map
      (fun w => (w.triggeredAssertions, (w.heap 0).TriggerCount, (w.heap 1).TriggerCount,
        (w.heap 0).Filename, (w.heap 1).Filename, (w.heap 0).Linenum, (w.heap 1).Linenum))
      = Except.ok ([1, 0], 1, 1, "a.go", "a.go", 10, 10) := rfl

/-- Claim C2: a failure reported while a handler invocation for a previous
failure is still in progress (reentrancy depth 2) does NOT abort: the
nested report runs to completion (both records registered) and the outer
call returns IGNORE normally, because assertionRunning is a local of
SDL_ReportAssertion and is always 1 at the escalation check. -/
theorem C2_nested_failure_no_abort :
    (SDL_enabled_assert_step nestedFailureHandler initialWorld "f" "a.go" 10).map
      (fun p => (p.2, p.1.triggeredAssertions,
        (p.1.heap 0).TriggerCount, (p.1.heap 1).TriggerCount))
      = Except.ok (SDL_ASSERTION_IGNORE, [1, 0], 1, 1) := rfl

/-- Claim C5: a handler verdict of ALWAYS_IGNORE makes SDL_ReportAssertion
return IGNORE and durably set the record's flag; on a record whose flag is
set, the result is the same for every handler (the handler is not
invoked), resolves as IGNORE and keeps the flag set. -/
theorem C5_always_ignore :
    (∀ (h : SDL_AssertData → SDL_AssertState) (s : AssertWorld) (id : Nat)
        (fn file : String) (line : Int), (∀ d, h d = SDL_ASSERTION_ALWAYS_IGNORE) →
        (SDL_ReportAssertion (liftHandler h) s id fn file line).map
          (fun p => (p.2, (p.1.heap id).AlwaysIgnore))
          = Except.ok (SDL_ASSERTION_IGNORE, true))
    ∧ (∀ (s : AssertWorld) (id : Nat) (fn file : String) (line : Int),
        (s.heap id).AlwaysIgnore = true →
        (∀ hd1 hd2 : Handler, SDL_ReportAssertion hd1 s id fn file line
            = SDL_ReportAssertion hd2 s id fn file line)
        ∧ ∀ hd : Handler, (SDL_ReportAssertion hd s id fn file line).map
            (fun p => (p.2, (p.1.heap id).AlwaysIgnore))
            = Except.ok (SDL_ASSERTION_IGNORE, true)) :=
  ⟨fun h s id fn file line hA => report_always_ignore_verdict h s id fn file line hA,
   fun s id fn file line hfl => report_flagged_record s id fn file line hfl⟩

/-- Witness for C5_always_ignore: an always-ALWAYS_IGNORE handler on the
initial world resolves as IGNORE with the flag set. -/
theorem C5_always_ignore_witness :
    (SDL_ReportAssertion (liftHandler (fun _ => SDL_ASSERTION_ALWAYS_IGNORE))
        initialWorld 0 "f" "a.go" 10).map
      (fun p => (p.2, (p.1.heap 0).AlwaysIgnore))
      = Except.ok (SDL_ASSERTION_IGNORE, true) :=
  C5_always_ignore.1 (fun _ => SDL_ASSERTION_ALWAYS_IGNORE) initialWorld 0 "f" "a.go" 10
    (fun _ => rfl)

/-- Claim C6: the default handler answers a recognized SDL_ASSERT value
directly without reading input; any other non-empty value gives ABORT;
when the variable is unset it prompts (a recognized first token is
honored), and an input stream with no recognized token, in particular an
exhausted one, gives ABORT. -/
theorem C6_default_handler_env :
    (∀ stdin : List String,
        SDL_PromptAssertion "abort" stdin = SDL_ASSERTION_ABORT
        ∧ SDL_PromptAssertion "break" stdin = SDL_ASSERTION_BREAK
        ∧ SDL_PromptAssertion "retry" stdin = SDL_ASSERTION_RETRY
        ∧ SDL_PromptAssertion "ignore" stdin = SDL_ASSERTION_IGNORE
        ∧ SDL_PromptAssertion "always_ignore" stdin = SDL_ASSERTION_ALWAYS_IGNORE)
    ∧ (∀ (envr : String) (stdin : List String), envr ≠ "" →
        envr ∉ (["abort", "break", "retry", "ignore", "always_ignore"] : List String) →
        SDL_PromptAssertion envr stdin = SDL_ASSERTION_ABORT)
    ∧ (∀ stdin : List String, (∀ b ∈ stdin, b ∉ (["a", "b", "r", "i", "A"] : List String)) →
        SDL_PromptAssertion "" stdin = SDL_ASSERTION_ABORT)
    ∧ (∀ stdin : List String,
        SDL_PromptAssertion "" ("i" :: stdin) = SDL_ASSERTION_IGNORE) := by
  refine ⟨fun stdin => ⟨rfl, rfl, rfl, rfl, rfl⟩, ?_, ?_, fun stdin => rfl⟩
  · intro envr stdin hne hmem
    simp only [List.mem_cons, List.mem_singleton] at hmem
    push_neg at hmem
    obtain ⟨h1, h2, h3, h4, h5⟩ := hmem
    simp [SDL_PromptAssertion, hne, h1, h2, h3, h4, h5]
  · intro stdin hstdin
    simp only [SDL_PromptAssertion, ne_eq, not_true_eq_false, if_false]
    exact promptLoop_no_token SDL_ASSERTION_ABORT stdin hstdin

/-- Witness for C6_default_handler_env: an unrecognized environment value
and an unrecognized-then-exhausted input stream both give ABORT. -/
theorem C6_default_handler_env_witness :
    SDL_PromptAssertion "xyz" [] = SDL_ASSERTION_ABORT
    ∧ SDL_PromptAssertion "" ["q", "z"] = SDL_ASSERTION_ABORT :=
  ⟨C6_default_handler_env.2.1 "xyz" [] (by decide) (by decide),
   C6_default_handler_env.2.2.1 ["q", "z"] (by decide)⟩

/-- Claim C7: reset empties the registry list and zeroes the trigger count
and always-ignore flag of every listed record; a subsequent failure of a
previously-listed record is a first-time trigger: its location fields are
recaptured from the new report, its count becomes 1 and it is re-inserted
into the list. -/
theorem C7_reset :
    (∀ s : AssertWorld,
        (SDL_ResetAssertionReport s).triggeredAssertions = []
        ∧ ∀ id, id ∈ s.triggeredAssertions →
            ((SDL_ResetAssertionReport s).heap id).TriggerCount = 0
            ∧ ((SDL_ResetAssertionReport s).heap id).AlwaysIgnore = false)
    ∧ (∀ (h : SDL_AssertData → SDL_AssertState) (s : AssertWorld) (id : Nat)
        (fn file : String) (line : Int), id ∈ s.triggeredAssertions →
        (∀ d, h d ≠ SDL_ASSERTION_ABORT) →
        (SDL_ReportAssertion (liftHandler h) (SDL_ResetAssertionReport s) id fn file line).map
          (fun p => ((p.1.heap id).Function, (p.1.heap id).Filename, (p.1.heap id).Linenum,
            (p.1.heap id).TriggerCount, decide (id ∈ p.1.triggeredAssertions)))
          = Except.ok (fn, file, line, 1, true)) := by
  constructor
  · intro s
    refine ⟨rfl, fun id hmem => ?_⟩
    constructor <;> simp [SDL_ResetAssertionReport, hmem]
  · intro h s id fn file line hmem hab
    exact report_first_trigger h (SDL_ResetAssertionReport s) id fn file line
      (by simp [SDL_ResetAssertionReport, hmem])
      (by simp [SDL_ResetAssertionReport, hmem]) hab

/-- A world with one already-triggered record at address 0, for the C7
witness. -/
def triggeredWorld : AssertWorld :=
  { heap := fun _ => { emptyAssertData with TriggerCount := 1, AlwaysIgnore := true },
    triggeredAssertions := [0], nextId := 1 }

/-- Witness for C7_reset: after a reset of triggeredWorld, a report on the
previously-listed record 0 recaptures the location and re-inserts it. -/
theorem C7_reset_witness :
    (SDL_ReportAssertion (liftHandler (fun _ => SDL_ASSERTION_IGNORE))
        (SDL_ResetAssertionReport triggeredWorld) 0 "f" "a.go" 10).map
      (fun p => ((p.1.heap 0).Function, (p.1.heap 0).Filename, (p.1.heap 0).Linenum,
        (p.1.heap 0).TriggerCount, decide (0 ∈ p.1.triggeredAssertions)))
      = Except.ok ("f", "a.go", 10, 1, true) :=
  C7_reset.2 (fun _ => SDL_ASSERTION_IGNORE) triggeredWorld 0 "f" "a.go" 10
    (by decide)
    (fun _ => (by decide : SDL_ASSERTION_IGNORE ≠ SDL_ASSERTION_ABORT))
